import Mathlib

/-!
Verification of the PyCNC fork's motion-control core against its
natural-language specification.

The Python sources (cnc/coordinates.py, cnc/gcode.py, cnc/gmachine.py,
cnc/pulses.py, cnc/config.py) are shallowly embedded: machine floats are
modelled as exact rationals `ℚ`, Python's `round` builtin as
round-half-to-even, exceptions as explicit error values, and the hardware
layer (`hal`) as an oracle record.  `math.sqrt` appears only where the
modelled claim does not depend on its value; there it is either an oracle
field or `Real.sqrt`.
-/

namespace PyCNC

/-- Python's builtin `round` to an integer: round half to even. -/
def roundHalfEven (q : ℚ) : ℤ :=
  let f := ⌊q⌋
  let r := q - f
  if r < 1/2 then f
  else if 1/2 < r then f + 1
  else if f % 2 = 0 then f else f + 1

/-- Python's `round(x, 10)`: round to 10 fractional decimal digits
(half to even), as used by `Coordinates.__init__` in coordinates.py. -/
def round10 (q : ℚ) : ℚ := (roundHalfEven (q * 10 ^ 10) : ℚ) / 10 ^ 10

/-- Python's `math.copysign(mag, sgn)` for the sign values (±1) used in
coordinates.py. -/
def copysign (mag sgn : ℚ) : ℚ := if sgn < 0 then -|mag| else |mag|

/-! Configuration constants from cnc/config.py (exact rational values). -/

def distance_pivot_tool_mm : ℚ := 40
def distance_pivot_FFF_nozzle : ℚ := 0
def TABLE_SIZE_Z_MM : ℚ := 455
def TABLE_SIZE_RADIUS_MM : ℚ := 180
def MAX_ROTATION_N_MM : ℚ := 360
def MAX_TILT_ANGLE : ℚ := 90
def MAX_VELOCITY_MM_PER_MIN_X : ℚ := 6000
def MAX_VELOCITY_MM_PER_MIN_Y : ℚ := 6000
def MAX_VELOCITY_MM_PER_MIN_Z : ℚ := 6000
def MAX_VELOCITY_MM_PER_MIN_E : ℚ := 1500
def MAX_VELOCITY_MM_PER_MIN_Q : ℚ := 3000
def MAX_VELOCITY_MM_PER_MIN_N : ℚ := 600
def MAX_VELOCITY_MM_PER_MIN_A : ℚ := 800
def MAX_VELOCITY_MM_PER_MIN_B : ℚ := 800
def MIN_VELOCITY_MM_PER_MIN : ℚ := 1
def STEPPER_PULSES_PER_MM_X : ℚ := 100
def STEPPER_PULSES_PER_MM_Y : ℚ := 100
def STEPPER_PULSES_PER_MM_Z : ℚ := 100
def STEPPER_PULSES_PER_MM_E : ℚ := 150
def STEPPER_PULSES_PER_MM_Q : ℚ := 100
def STEPPER_PULSES_PER_MM_N : ℚ := 80
def STEPPER_PULSES_PER_MM_A : ℚ := 444
def STEPPER_PULSES_PER_MM_B : ℚ := 356
def EXTRUDER_MAX_TEMPERATURE : ℚ := 250
def BED_MAX_TEMPERATURE : ℚ := 100
def MIN_TEMPERATURE : ℚ := 40
def SECONDS_IN_MINUTE : ℚ := 60

/-- The 8-component coordinate vector of cnc/coordinates.py. -/
structure Coordinates where
  x : ℚ
  y : ℚ
  z : ℚ
  e : ℚ
  q : ℚ
  n : ℚ
  a : ℚ
  b : ℚ
deriving DecidableEq

namespace Coordinates

/-- `Coordinates.__init__`: every component is rounded to 10 fractional
decimal digits on construction. -/
def init (x y z e q n a b : ℚ) : Coordinates :=
  ⟨round10 x, round10 y, round10 z, round10 e,
   round10 q, round10 n, round10 a, round10 b⟩

/-- `Coordinates.is_zero`. -/
def is_zero (c : Coordinates) : Bool :=
  decide (c.x = 0 ∧ c.y = 0 ∧ c.z = 0 ∧ c.e = 0
    ∧ c.q = 0 ∧ c.n = 0 ∧ c.a = 0 ∧ c.b = 0)

/-- `Coordinates.is_in_aabb`: the working-volume containment test.  The
planar components are checked radially against the larger x corner (with a
tool-pivot offset when the rotary component sits at one of the two corner
extremes); z, n, a get ordinary min/max bound checks; y, e, q, b bounds are
never checked.  `sorted((p1.c, p2.c))` becomes `min`/`max`. -/
def is_in_aabb (c p1 p2 : Coordinates) : Bool :=
  let max_x := max p1.x p2.x
  let min_z := min p1.z p2.z
  let max_z := max p1.z p2.z
  let min_n := min p1.n p2.n
  let max_n := max p1.n p2.n
  let min_a := min p1.a p2.a
  let max_a := max p1.a p2.a
  if c.n = min_n ∨ c.n = max_n then
    let pos : ℚ := if c.n = min_n then 1 else -1
    if (c.x + copysign distance_pivot_tool_mm pos
        + copysign distance_pivot_FFF_nozzle pos) ^ 2 + c.y ^ 2 > max_x ^ 2 then
      false
    else if c.z < min_z ∨ c.n < min_n ∨ c.a < min_a then false
    else if c.z > max_z ∨ c.n > max_n ∨ c.a > max_a then false
    else true
  else
    if c.x ^ 2 + c.y ^ 2 > max_x ^ 2 then false
    else if c.z < min_z ∨ c.n < min_n ∨ c.a < min_a then false
    else if c.z > max_z ∨ c.n > max_n ∨ c.a > max_a then false
    else true

/-- `Coordinates.round`: round each component to the nearest multiple of
its base, then normalize through the constructor. -/
def round (c : Coordinates)
    (base_x base_y base_z base_e base_q base_n base_a base_b : ℚ) :
    Coordinates :=
  init ((roundHalfEven (c.x / base_x) : ℚ) * base_x)
       ((roundHalfEven (c.y / base_y) : ℚ) * base_y)
       ((roundHalfEven (c.z / base_z) : ℚ) * base_z)
       ((roundHalfEven (c.e / base_e) : ℚ) * base_e)
       ((roundHalfEven (c.q / base_q) : ℚ) * base_q)
       ((roundHalfEven (c.n / base_n) : ℚ) * base_n)
       ((roundHalfEven (c.a / base_a) : ℚ) * base_a)
       ((roundHalfEven (c.b / base_b) : ℚ) * base_b)

/-- `Coordinates.find_max`. -/
def find_max (c : Coordinates) : ℚ :=
  max c.x (max c.y (max c.z (max c.e (max c.q (max c.n (max c.a c.b))))))

/-- `Coordinates.__add__`: componentwise, through the constructor. -/
def add (c o : Coordinates) : Coordinates :=
  init (c.x + o.x) (c.y + o.y) (c.z + o.z) (c.e + o.e)
       (c.q + o.q) (c.n + o.n) (c.a + o.a) (c.b + o.b)

/-- `Coordinates.__sub__`. -/
def sub (c o : Coordinates) : Coordinates :=
  init (c.x - o.x) (c.y - o.y) (c.z - o.z) (c.e - o.e)
       (c.q - o.q) (c.n - o.n) (c.a - o.a) (c.b - o.b)

/-- `Coordinates.__mul__` (scalar). -/
def mul (c : Coordinates) (v : ℚ) : Coordinates :=
  init (c.x * v) (c.y * v) (c.z * v) (c.e * v)
       (c.q * v) (c.n * v) (c.a * v) (c.b * v)

/-- `Coordinates.__truediv__` (scalar; the Python code never divides by
zero on the executed paths). -/
def div (c : Coordinates) (v : ℚ) : Coordinates :=
  init (c.x / v) (c.y / v) (c.z / v) (c.e / v)
       (c.q / v) (c.n / v) (c.a / v) (c.b / v)

/-- `Coordinates.__abs__`. -/
def abs (c : Coordinates) : Coordinates :=
  init |c.x| |c.y| |c.z| |c.e| |c.q| |c.n| |c.a| |c.b|

/-- Raw attribute assignment `obj.x = v`, as performed outside the
constructor by pulses.py (`distance_mm.x = ...`,
`velocity_mm_per_min_axis.x = ...`, `self.max_velocity_mm_per_sec.x = ...`).
It bypasses the constructor's 10-digit normalization. -/
def setX (c : Coordinates) (v : ℚ) : Coordinates := { c with x := v }

/-- Raw attribute assignment `obj.a = v`, as performed by the G93 handler
in gmachine.py (`self._position.a = 90.0`). -/
def setA (c : Coordinates) (v : ℚ) : Coordinates := { c with a := v }

/-- A vector is normalized when every component is a fixed point of the
constructor's 10-digit rounding. -/
def normalized (c : Coordinates) : Prop :=
  round10 c.x = c.x ∧ round10 c.y = c.y ∧ round10 c.z = c.z
    ∧ round10 c.e = c.e ∧ round10 c.q = c.q ∧ round10 c.n = c.n
    ∧ round10 c.a = c.a ∧ round10 c.b = c.b

instance (c : Coordinates) : Decidable (normalized c) := by
  unfold normalized; infer_instance

end Coordinates

/-! Embedding of the line parser, cnc/gcode.py.  Lines are lists of
characters; `clean_pattern` and `g_pattern` are embedded as scanners with
the exact semantics of `re.sub` / `re.findall` on those patterns. -/

namespace GCode

/-- Python `\s` on ASCII input. -/
def isSpaceChar (c : Char) : Bool :=
  c = ' ' || c = '\t' || c = '\n' || c = '\x0B' || c = '\x0C' || c = '\r'

/-- Character class `[0-9.]` of `g_pattern`. -/
def is_digit_dot (c : Char) : Bool := ('0' ≤ c && c ≤ '9') || c = '.'

/-- Character class `[A-Z]` of `g_pattern`. -/
def is_gcode_letter (c : Char) : Bool := 'A' ≤ c && c ≤ 'Z'

/-- `str.upper()` on ASCII input. -/
def to_upper (l : List Char) : List Char := l.map Char.toUpper

/-- Scan for the first `)` (the non-greedy `\(.*?\)`, where `.` does not
match a newline); returns how many characters the comment body occupies
including the closing parenthesis. -/
def find_close_idx : List Char → Option ℕ
  | [] => none
  | c :: rest =>
    if c = ')' then some 1
    else if c = '\n' then none
    else (find_close_idx rest).map (· + 1)

/-- Scanner loop for `clean_line`; the fuel argument (initially the line
length, which every step strictly consumes) only forces structural
recursion and is never exhausted. -/
def clean_line_go : ℕ → List Char → List Char
  | _, [] => []
  | 0, l => l
  | fuel + 1, c :: rest =>
    if isSpaceChar c then clean_line_go fuel (rest.dropWhile isSpaceChar)
    else if c = '(' then
      match find_close_idx rest with
      | some k => clean_line_go fuel (rest.drop k)
      | none => c :: clean_line_go fuel rest
    else if c = ';' then clean_line_go fuel (rest.dropWhile (fun d => !(d = '\n')))
    else c :: clean_line_go fuel rest

/-- `re.sub('\s+|\(.*?\)|;.*', '', line)`: left-to-right scan removing
whitespace runs, parenthesized comments, and `;`-to-end-of-line comments;
an unclosed `(` is kept.  Alternatives are tried in pattern order at each
position, exactly as `re.sub` does. -/
def clean_line (l : List Char) : List Char := clean_line_go l.length l

/-- Scanner loop for `find_all`; the fuel argument (initially the line
length, which every step strictly consumes) only forces structural
recursion and is never exhausted. -/
def find_all_go : ℕ → List Char → List (Char × List Char)
  | _, [] => []
  | 0, _ => []
  | fuel + 1, c :: rest =>
    if is_gcode_letter c then
      match rest with
      | s :: rest2 =>
        if s = '-' || s = '+' then
          let ds := rest2.takeWhile is_digit_dot
          if ds.isEmpty then find_all_go fuel (s :: rest2)
          else (c, s :: ds) :: find_all_go fuel (rest2.dropWhile is_digit_dot)
        else
          let ds := (s :: rest2).takeWhile is_digit_dot
          if ds.isEmpty then find_all_go fuel (s :: rest2)
          else (c, ds) :: find_all_go fuel ((s :: rest2).dropWhile is_digit_dot)
      | [] => []
    else find_all_go fuel rest

/-- `re.findall(g_pattern, line)` for
`g_pattern = ([A-Z])([-+]?[0-9.]+)`: non-overlapping left-to-right
matches; the value group is an optional sign followed by a maximal
nonempty run of `[0-9.]`; a failed attempt advances the scan by one
character. -/
def find_all (l : List Char) : List (Char × List Char) := find_all_go l.length l

/-- Total text length covered by the matches: `len(''.join(...))` in
`parse_line`. -/
def covered_length (m : List (Char × List Char)) : ℕ :=
  (m.map (fun p => 1 + p.2.length)).sum

/-- The letters of the matched pairs. -/
def keys (m : List (Char × List Char)) : List Char := m.map Prod.fst

inductive ParseErr where
  | gcodeNotFound
  | extraChars
  | duplicated
  | gAndM
  | nAndM
deriving DecidableEq

inductive ParseOutcome where
  | noCommand : ParseOutcome
  | failed : ParseErr → ParseOutcome
  | ok : List (Char × List Char) → ParseOutcome
deriving DecidableEq

/-- `GCode.parse_line`: uppercase, strip, `%`-and-empty handling, token
scan, coverage check (`len` comparison), duplicate check (`dict` length
comparison), and the two mutual-exclusion checks. -/
def parse_line (line : List Char) : ParseOutcome :=
  let l := clean_line (to_upper line)
  if l = [] then .noCommand
  else if l.head? = some '%' then .noCommand
  else
    let m := find_all l
    if m = [] then .failed .gcodeNotFound
    else if covered_length m ≠ l.length then .failed .extraChars
    else if (keys m).dedup.length ≠ m.length then .failed .duplicated
    else if 'G' ∈ keys m ∧ 'M' ∈ keys m then .failed .gAndM
    else if 'N' ∈ keys m ∧ 'M' ∈ keys m then .failed .nAndM
    else .ok m

/-- Outcome classifier: did `parse_line` raise `GCodeException`? -/
def is_parse_error : ParseOutcome → Bool
  | .failed _ => true
  | _ => false

/-- The malformedness predicate of the claim, over the stripped line:
leftover characters not decomposed into letter+number pairs, duplicate
letters, both `G` and `M`, or both `N` and `M`. -/
def malformed (l : List Char) : Prop :=
  covered_length (find_all l) ≠ l.length
    ∨ ¬ (keys (find_all l)).Nodup
    ∨ ('G' ∈ keys (find_all l) ∧ 'M' ∈ keys (find_all l))
    ∨ ('N' ∈ keys (find_all l) ∧ 'M' ∈ keys (find_all l))

/-- Exponent suffix of a decimal literal: empty, or `e`/`E`, optional
sign, then a nonempty digit run. -/
def expo_ok : List Char → Bool
  | [] => true
  | c :: r =>
    if c = 'e' || c = 'E' then
      let r2 := match r with
        | s :: r1 => if s = '+' || s = '-' then r1 else s :: r1
        | [] => []
      !r2.isEmpty && r2.all (fun d => '0' ≤ d && d ≤ '9')
    else false

/-- Modelled from the spec: the decimal-number grammar accepted by
Python's builtin `float` (which `GCode.get` applies to the stored value
string) — optional sign, then digits with at most one dot and at least
one digit, then an optional exponent.  The `inf`/`nan`/underscore forms,
irrelevant here, are omitted. -/
def is_valid_decimal (l : List Char) : Bool :=
  let l1 := match l with
    | c :: r => if c = '+' || c = '-' then r else c :: r
    | [] => []
  let ip := l1.takeWhile (fun d => '0' ≤ d && d ≤ '9')
  let r1 := l1.dropWhile (fun d => '0' ≤ d && d ≤ '9')
  match r1 with
  | '.' :: r2 =>
    let fp := r2.takeWhile (fun d => '0' ≤ d && d ≤ '9')
    let r3 := r2.dropWhile (fun d => '0' ≤ d && d ≤ '9')
    if ip.isEmpty && fp.isEmpty then false else expo_ok r3
  | _ => if ip.isEmpty then false else expo_ok r1

end GCode

/-! Embedding of the pulse-generation engine, cnc/pulses.py. -/

namespace Pulses

/-- `PulseGenerator._adjust_velocity` (the fork's scalar version): with
auto-adjustment off, return the velocity unchanged; otherwise scale it by
`min 1 (MAX_INDICATOR / velocity / 60)` when `velocity * 60` exceeds
`MAX_INDICATOR`. -/
def adjust_velocity (auto : Bool) (velocity_mm_sec MAX_INDICATOR : ℚ) : ℚ :=
  if !auto then velocity_mm_sec
  else
    let var_const : ℚ := 1
    let var_const :=
      if velocity_mm_sec * SECONDS_IN_MINUTE > MAX_INDICATOR then
        min var_const (MAX_INDICATOR / velocity_mm_sec / SECONDS_IN_MINUTE)
      else var_const
    velocity_mm_sec * var_const

/-- The per-axis velocity clamp stage of `PulseGeneratorLinear.__init__`
(pulses.py lines 413-431): the eight per-axis input velocities (mm/s,
already nonnegative by construction there) are each passed through
`_adjust_velocity` against their own axis maximum, producing
`self.max_velocity_mm_per_sec` by direct attribute assignment. -/
def max_velocity_stage (auto : Bool) (w : Coordinates) : Coordinates :=
  ⟨adjust_velocity auto w.x MAX_VELOCITY_MM_PER_MIN_X,
   adjust_velocity auto w.y MAX_VELOCITY_MM_PER_MIN_Y,
   adjust_velocity auto w.z MAX_VELOCITY_MM_PER_MIN_Z,
   adjust_velocity auto w.e MAX_VELOCITY_MM_PER_MIN_E,
   adjust_velocity auto w.q MAX_VELOCITY_MM_PER_MIN_Q,
   adjust_velocity auto w.n MAX_VELOCITY_MM_PER_MIN_N,
   adjust_velocity auto w.a MAX_VELOCITY_MM_PER_MIN_A,
   adjust_velocity auto w.b MAX_VELOCITY_MM_PER_MIN_B⟩

/-- One per-axis pulse stream of the linear generator: configuration
(steps per mm, axis velocity, total pulse count) plus the iteration
counter `self._iteration_<axis>`.  pulses.py instantiates this shape
eight times with per-axis fields. -/
structure LinearAxisState where
  pulses_per_mm : ℚ
  velocity_mm_per_sec : ℚ
  total_pulses : ℕ
  iteration : ℕ
deriving DecidableEq

/-- `PulseGeneratorLinear.__linear`: pseudo-time of pulse number
`iteration`, or `None` when the axis has no pulses left. -/
def linear_pseudo_time (ax : LinearAxisState) : Option ℚ :=
  if ax.total_pulses = 0 ∨ ax.iteration ≥ ax.total_pulses then none
  else some ((ax.iteration : ℚ) / ax.pulses_per_mm / ax.velocity_mm_per_sec)

/-- The minimum over the non-`None` per-axis pseudo-times (the `m` loop in
`PulseGenerator.next`). -/
def min_pseudo_time : List (Option ℚ) → Option ℚ
  | [] => none
  | none :: rest => min_pseudo_time rest
  | some v :: rest =>
    match min_pseudo_time rest with
    | none => some v
    | some w => some (min v w)

/-- One pulse iteration of `PulseGenerator.next` at the pseudo-time level
(the direction-update element, which carries no timestamp, is omitted):
compute every axis's pseudo-time, stop (`StopIteration`) when all are
`None`, otherwise emit the minimum `m` and advance exactly the axes whose
pseudo-time is not greater than `m`. -/
def gen_step (axes : List LinearAxisState) : Option (ℚ × List LinearAxisState) :=
  match min_pseudo_time (axes.map linear_pseudo_time) with
  | none => none
  | some m =>
    some (m, axes.map (fun ax =>
      match linear_pseudo_time ax with
      | some v => if v ≤ m then { ax with iteration := ax.iteration + 1 } else ax
      | none => ax))

/-- `PulseGenerator._to_accelerated_time`: map the uniform-motion
pseudo-time to real accelerated time (acceleration, cruise, braking
branches). -/
noncomputable def to_accelerated_time
    (acceleration_time_s linear_time_s two_Vmax_per_a pt_s : ℝ) : ℝ :=
  let t := Real.sqrt (pt_s * two_Vmax_per_a)
  if t ≤ acceleration_time_s then t
  else
    let t2 := acceleration_time_s + pt_s - acceleration_time_s ^ 2 / two_Vmax_per_a
    let bt := t2 - acceleration_time_s - linear_time_s
    if bt ≤ 0 then t2
    else
      let d := acceleration_time_s ^ 2 - two_Vmax_per_a * bt
      let d2 := if d > 0 then Real.sqrt d else 0
      2 * acceleration_time_s + linear_time_s - d2

/-- Well-formedness of a generator: any axis that still emits pulses has
positive steps-per-mm and positive velocity (pulses.py divides by both). -/
def axes_wf (axes : List LinearAxisState) : Prop :=
  ∀ ax ∈ axes, ax.total_pulses ≠ 0 →
    0 < ax.pulses_per_mm ∧ 0 < ax.velocity_mm_per_sec

end Pulses

/-! Embedding of the command interpreter, cnc/gmachine.py.  The hardware
layer is an oracle (`Hal`): the realized generator peak velocities, the
success of `hal.move`, the calibration result, the temperature-sensor
availability, the A-axis endstop readings, and `math.sqrt` as consumed by
`safe_zero`'s extrusion-distance formulas. -/

namespace GMachine

inductive Plane where
  | XY
  | ZX
  | YZ
deriving DecidableEq

/-- The command tokens `do_command` dispatches on; `unknownCmd` stands for
any other `G`/`M` code (the final `else` arm). -/
inductive Cmd where
  | G0 | G1 | G2 | G3 | G4 | G17 | G18 | G19 | G20 | G21
  | G28 | G53 | G90 | G91 | G92 | G93
  | M2 | M3 | M5 | M30 | M82 | M83 | M84
  | M104 | M105 | M106 | M107 | M109 | M111 | M114 | M140 | M190
  | unknownCmd
deriving DecidableEq

/-- A parsed gcode line as consumed by `do_command`: the numeric value for
each letter it reads (already converted from the stored string), plus the
command token. -/
structure GLine where
  x : Option ℚ
  y : Option ℚ
  z : Option ℚ
  e : Option ℚ
  q : Option ℚ
  n : Option ℚ
  a : Option ℚ
  b : Option ℚ
  f : Option ℚ
  p : Option ℚ
  s : Option ℚ
  cmd : Option Cmd
deriving DecidableEq

/-- The interpreter state tracked by the spec's error-handling contract:
`self._position`, `self._local`, `self._velocity`,
`self._convertCoordinates`, `self._absoluteCoordinates`, `self._plane`
(heaters and the fan flag are collaborator-side and not modelled). -/
structure MachineState where
  position : Coordinates
  localOffset : Coordinates
  velocity : ℚ
  convertCoordinates : ℚ
  absoluteCoordinates : Bool
  plane : Plane
deriving DecidableEq

/-- Hardware-collaborator oracle. -/
structure Hal where
  sqrt : ℚ → ℚ
  genMaxVelocity : Coordinates → ℚ → Coordinates
  moveOk : Coordinates → ℚ → Bool
  calibrateOk : Bool → Bool → Bool → Bool
  extruderTempOk : Bool
  bedTempOk : Bool
  endstopA : List Bool

/-- The `GMachineException` messages raised by `do_command` and its
helpers. -/
inductive GErr where
  | feedSpeedTooLow
  | outOfEffectiveArea
  | outOfMaximumSpeed
  | moveFailed
  | pNotSpecified
  | badDelay
  | calibrateFailed
  | notImplementedCmd
  | temperatureNotSpecified
  | badTemperature
  | cannotMeasureTemperature
  | extruderModeIncompatible
  | unknownCommand
deriving DecidableEq

/-- Result of a handler: the machine state when the call returns or the
exception escapes, the raised error if any, and the list of `hal.move`
invocations (delta, velocity) that were issued. -/
structure MoveRes where
  state : MachineState
  error : Option GErr
  moves : List (Coordinates × ℚ)
deriving DecidableEq

/-- Exception propagation: run `f` on the state only when no error was
raised so far, accumulating the `hal.move` log. -/
def bind_move (r : MoveRes) (f : MachineState → MoveRes) : MoveRes :=
  match r.error with
  | some _ => r
  | none =>
    let r2 := f r.state
    ⟨r2.state, r2.error, r.moves ++ r2.moves⟩

/-- `GMachine.reset`'s velocity: the minimum of the eight configured
per-axis maxima. -/
def reset_velocity : ℚ :=
  min MAX_VELOCITY_MM_PER_MIN_X (min MAX_VELOCITY_MM_PER_MIN_Y
    (min MAX_VELOCITY_MM_PER_MIN_Z (min MAX_VELOCITY_MM_PER_MIN_E
      (min MAX_VELOCITY_MM_PER_MIN_Q (min MAX_VELOCITY_MM_PER_MIN_N
        (min MAX_VELOCITY_MM_PER_MIN_A MAX_VELOCITY_MM_PER_MIN_B))))))

/-- `GMachine.__init__` followed by `reset()`. -/
def initial_state : MachineState :=
  ⟨Coordinates.init 0 0 0 0 0 0 0 0, Coordinates.init 0 0 0 0 0 0 0 0,
   reset_velocity, 1, true, .XY⟩

/-- `GMachine.__check_delta` as a predicate: the prospective absolute
position is tested against the working volume with zero as one corner and
the configured maxima as the other. -/
def check_delta_ok (pos : Coordinates) : Bool :=
  pos.is_in_aabb (Coordinates.init 0 0 0 0 0 0 0 0)
    (Coordinates.init TABLE_SIZE_RADIUS_MM TABLE_SIZE_RADIUS_MM
      TABLE_SIZE_Z_MM 0 0 MAX_ROTATION_N_MM MAX_TILT_ANGLE 0)

/-- `GMachine.__check_velocity` as a predicate: true when some axis of the
generator's reported peak-velocity vector (mm/min) exceeds its configured
maximum, i.e. when the exception is raised. -/
def check_velocity_errors (mv : Coordinates) : Bool :=
  decide (mv.x > MAX_VELOCITY_MM_PER_MIN_X) || decide (mv.y > MAX_VELOCITY_MM_PER_MIN_Y)
    || decide (mv.z > MAX_VELOCITY_MM_PER_MIN_Z) || decide (mv.e > MAX_VELOCITY_MM_PER_MIN_E)
    || decide (mv.q > MAX_VELOCITY_MM_PER_MIN_Q) || decide (mv.n > MAX_VELOCITY_MM_PER_MIN_N)
    || decide (mv.a > MAX_VELOCITY_MM_PER_MIN_A) || decide (mv.b > MAX_VELOCITY_MM_PER_MIN_B)

/-- `GMachine._move_linear`: round the delta to the per-axis step grid; a
zero rounded delta returns immediately; then envelope check, generator
construction with velocity check (realized peaks from the oracle), the
`hal.move` hand-off, and only then the position commit. -/
def move_linear (hal : Hal) (s : MachineState) (delta : Coordinates)
    (velocity : ℚ) : MoveRes :=
  let d := delta.round (1 / STEPPER_PULSES_PER_MM_X) (1 / STEPPER_PULSES_PER_MM_Y)
    (1 / STEPPER_PULSES_PER_MM_Z) (1 / STEPPER_PULSES_PER_MM_E)
    (1 / STEPPER_PULSES_PER_MM_Q) (1 / STEPPER_PULSES_PER_MM_N)
    (1 / STEPPER_PULSES_PER_MM_A) (1 / STEPPER_PULSES_PER_MM_B)
  if d.is_zero then ⟨s, none, []⟩
  else if !(check_delta_ok (s.position.add d)) then ⟨s, some .outOfEffectiveArea, []⟩
  else if check_velocity_errors (hal.genMaxVelocity d velocity) then
    ⟨s, some .outOfMaximumSpeed, []⟩
  else if !(hal.moveOk d velocity) then ⟨s, some .moveFailed, [(d, velocity)]⟩
  else ⟨{ s with position := s.position.add d }, none, [(d, velocity)]⟩

/-- `GMachine.safe_zero`: the homing sequence.  `TOP_Z_LOCATION` is fixed
from the entry position; the Cartesian retreat runs in one of four
combinations with a coupled Q-axis extrusion equal to the Euclidean
retreat distance (via the `math.sqrt` oracle), then N and A home
independently; each completed sub-move commits position before the next
one can fail.  The `z` flag is accepted but unused, as in the source. -/
def safe_zero (hal : Hal) (s : MachineState) (x y z n a : Bool) : MoveRes :=
  let TOP_Z_LOCATION := TABLE_SIZE_Z_MM - s.position.z
  let MIN_VEL := min (800 : ℚ) (min MAX_VELOCITY_MM_PER_MIN_X
    (min MAX_VELOCITY_MM_PER_MIN_Y (min MAX_VELOCITY_MM_PER_MIN_Z
      MAX_VELOCITY_MM_PER_MIN_Q)))
  let r1 :=
    if ¬x ∧ ¬y then
      move_linear hal s (Coordinates.init 0 0 TOP_Z_LOCATION 0 TOP_Z_LOCATION 0 0 0) MIN_VEL
    else ⟨s, none, []⟩
  let r2 := bind_move r1 (fun s1 =>
    if x ∧ ¬y then
      let extrusion := hal.sqrt (s1.position.x * s1.position.x
        + TOP_Z_LOCATION * TOP_Z_LOCATION)
      move_linear hal s1
        (Coordinates.init (-s1.position.x) 0 TOP_Z_LOCATION 0 extrusion 0 0 0) MIN_VEL
    else if y ∧ ¬x then
      let extrusion := hal.sqrt (s1.position.y * s1.position.y
        + TOP_Z_LOCATION * TOP_Z_LOCATION)
      move_linear hal s1
        (Coordinates.init 0 (-s1.position.y) TOP_Z_LOCATION 0 extrusion 0 0 0) MIN_VEL
    else if x ∧ y then
      let extrusion := hal.sqrt (s1.position.x * s1.position.x
        + s1.position.y * s1.position.y + TOP_Z_LOCATION * TOP_Z_LOCATION)
      move_linear hal s1
        (Coordinates.init (-s1.position.x) (-s1.position.y) TOP_Z_LOCATION 0 extrusion 0 0 0)
        (min MAX_VELOCITY_MM_PER_MIN_X (min MAX_VELOCITY_MM_PER_MIN_Y
          (min MAX_VELOCITY_MM_PER_MIN_Z MAX_VELOCITY_MM_PER_MIN_Q)))
    else ⟨s1, none, []⟩)
  let r3 := bind_move r2 (fun s2 =>
    if n then
      move_linear hal s2 (Coordinates.init 0 0 0 0 0 (-s2.position.n) 0 0)
        MAX_VELOCITY_MM_PER_MIN_N
    else ⟨s2, none, []⟩)
  bind_move r3 (fun s3 =>
    if a then
      move_linear hal s3 (Coordinates.init 0 0 0 0 0 0 (-s3.position.a) 0)
        MAX_VELOCITY_MM_PER_MIN_A
    else ⟨s3, none, []⟩)

/-- The G93 homing loop: while `gpio.read(ENDSTOP_PIN_A) == 0`, step the A
axis by `-0.01`; the oracle supplies the successive endstop readings
(`true` = endstop hit, exits the loop; an exhausted reading list also
models the endstop firing). -/
def g93_loop (hal : Hal) (s : MachineState) : List Bool → MoveRes
  | [] => ⟨s, none, []⟩
  | r :: rest =>
    if r then ⟨s, none, []⟩
    else
      let mv := move_linear hal s (Coordinates.init 0 0 0 0 0 0 (-(1/100)) 0)
        MAX_VELOCITY_MM_PER_MIN_A
      match mv.error with
      | some _ => mv
      | none =>
        let rec2 := g93_loop hal mv.state rest
        ⟨rec2.state, rec2.error, mv.moves ++ rec2.moves⟩

/-- The `G93` handler: switch to relative mode, assign `position.a := 90`
directly (raw attribute write), run the endstop loop, assign
`position.a := 0`, switch back to absolute mode, and move A by 45. -/
def g93_handler (hal : Hal) (s : MachineState) : MoveRes :=
  let s0 := { s with
    absoluteCoordinates := false
    position := Coordinates.setA s.position 90 }
  let r1 := g93_loop hal s0 hal.endstopA
  bind_move r1 (fun s1 =>
    let s2 := { s1 with
      position := Coordinates.setA s1.position 0
      absoluteCoordinates := true }
    move_linear hal s2 (Coordinates.init 0 0 0 0 0 0 45 0)
      MAX_VELOCITY_MM_PER_MIN_A)

/-- `GMachine._maximum_compatible_vel`: the G0 velocity selection. -/
def maximum_compatible_vel (x y z e q n a b : Bool) : ℚ :=
  let vl : ℚ := 9999999
  let vl := if ¬(x ∨ y ∨ z ∨ e ∨ q ∨ n ∨ a ∨ b) then MIN_VELOCITY_MM_PER_MIN else vl
  let vl := if x ∨ y ∨ z then
      min MAX_VELOCITY_MM_PER_MIN_X (min MAX_VELOCITY_MM_PER_MIN_Y
        (min MAX_VELOCITY_MM_PER_MIN_Z MAX_VELOCITY_MM_PER_MIN_Q))
    else vl
  let vl := if e ∧ vl > MAX_VELOCITY_MM_PER_MIN_E then MAX_VELOCITY_MM_PER_MIN_E else vl
  let vl := if q ∧ vl > MAX_VELOCITY_MM_PER_MIN_Q then MAX_VELOCITY_MM_PER_MIN_Q else vl
  let vl := if n ∧ vl > MAX_VELOCITY_MM_PER_MIN_N then MAX_VELOCITY_MM_PER_MIN_N else vl
  let vl := if a ∧ vl > MAX_VELOCITY_MM_PER_MIN_A then MAX_VELOCITY_MM_PER_MIN_A else vl
  let vl := if b ∧ vl > MAX_VELOCITY_MM_PER_MIN_B then MAX_VELOCITY_MM_PER_MIN_B else vl
  vl

/-- The claim's reading of the G0 rule (spec side, for comparison with
`maximum_compatible_vel`): the minimum of the configured per-axis maxima
over exactly the axes present, and the configured floor when no axis
letter is present. -/
def spec_rapid_velocity (x y z e q n a b : Bool) : ℚ :=
  let present : List ℚ :=
    (if x then [MAX_VELOCITY_MM_PER_MIN_X] else [])
      ++ (if y then [MAX_VELOCITY_MM_PER_MIN_Y] else [])
      ++ (if z then [MAX_VELOCITY_MM_PER_MIN_Z] else [])
      ++ (if e then [MAX_VELOCITY_MM_PER_MIN_E] else [])
      ++ (if q then [MAX_VELOCITY_MM_PER_MIN_Q] else [])
      ++ (if n then [MAX_VELOCITY_MM_PER_MIN_N] else [])
      ++ (if a then [MAX_VELOCITY_MM_PER_MIN_A] else [])
      ++ (if b then [MAX_VELOCITY_MM_PER_MIN_B] else [])
  match present with
  | [] => MIN_VELOCITY_MM_PER_MIN
  | v :: rest => rest.foldl min v

/-- `GCode.get` as used by `do_command` on the already-converted values:
value times multiplier when present, the default otherwise. -/
def gline_get (o : Option ℚ) (default multiply : ℚ) : ℚ :=
  match o with
  | some v => v * multiply
  | none => default

/-- `GCode.coordinates`: per-axis `get` with the shared multiplier,
assembled through the `Coordinates` constructor. -/
def gline_coordinates (g : GLine) (default : Coordinates) (multiply : ℚ) :
    Coordinates :=
  Coordinates.init (gline_get g.x default.x multiply) (gline_get g.y default.y multiply)
    (gline_get g.z default.z multiply) (gline_get g.e default.e multiply)
    (gline_get g.q default.q multiply) (gline_get g.n default.n multiply)
    (gline_get g.a default.a multiply) (gline_get g.b default.b multiply)

/-- `GCode.has_coordinates`. -/
def gline_has_coordinates (g : GLine) : Bool :=
  g.x.isSome || g.y.isSome || g.z.isSome || g.e.isSome
    || g.q.isSome || g.n.isSome || g.a.isSome || g.b.isSome

/-- The command token after defaulting: a line with coordinates but no
`G`/`M` token is a `G1`. -/
def effective_command (g : GLine) : Option Cmd :=
  match g.cmd with
  | none => if gline_has_coordinates g then some .G1 else none
  | some c => some c

/-- The delta `do_command` computes before dispatch: absolute mode uses
`coordinates(position - local, convert) + local - position`; relative
mode uses `coordinates(zero, convert)`. -/
def command_delta (s : MachineState) (g : GLine) : Coordinates :=
  if s.absoluteCoordinates then
    let coord := gline_coordinates g (s.position.sub s.localOffset) s.convertCoordinates
    let coord := coord.add s.localOffset
    coord.sub s.position
  else
    gline_coordinates g (Coordinates.init 0 0 0 0 0 0 0 0) s.convertCoordinates

/-- `gcode.get('F', self._velocity)` (multiplier 1.0). -/
def command_velocity (s : MachineState) (g : GLine) : ℚ :=
  match g.f with
  | some v => v
  | none => s.velocity

/-- `M2`/`M30`: `self.reset()` (position is not touched). -/
def reset_state (s : MachineState) : MoveRes :=
  ⟨{ s with
      velocity := reset_velocity
      localOffset := Coordinates.init 0 0 0 0 0 0 0 0
      convertCoordinates := 1
      absoluteCoordinates := true
      plane := .XY },
   none, []⟩

inductive Heater where
  | extruder
  | bed
deriving DecidableEq

/-- The `M104`/`M109`/`M140`/`M190` handler: requires `S`, validates the
temperature against the per-heater bounds (0 always allowed), then
`_heat` checks the sensor (oracle); the heater controller itself is
collaborator-side state. -/
def heat_handler (hal : Hal) (s : MachineState) (g : GLine) (heater : Heater) :
    MoveRes :=
  match g.s with
  | none => ⟨s, some .temperatureNotSpecified, []⟩
  | some _ =>
    let t := gline_get g.s 0 1
    let overMax :=
      match heater with
      | .extruder => decide (t > EXTRUDER_MAX_TEMPERATURE)
      | .bed => decide (t > BED_MAX_TEMPERATURE)
    if (overMax || decide (t < MIN_TEMPERATURE)) && decide (¬ t = 0) then
      ⟨s, some .badTemperature, []⟩
    else
      let measureOk :=
        match heater with
        | .extruder => hal.extruderTempOk
        | .bed => hal.bedTempOk
      if !measureOk then ⟨s, some .cannotMeasureTemperature, []⟩
      else ⟨s, none, []⟩

/-- The command dispatch of `do_command` (the `if c == ...` chain). -/
def dispatch (hal : Hal) (s : MachineState) (g : GLine) (c : Option Cmd)
    (delta : Coordinates) (velocity : ℚ) : MoveRes :=
  match c with
  | some .G0 =>
    let vl := maximum_compatible_vel g.x.isSome g.y.isSome g.z.isSome g.e.isSome
      g.q.isSome g.n.isSome g.a.isSome g.b.isSome
    move_linear hal s delta vl
  | some .G1 => move_linear hal s delta velocity
  | some .G2 => ⟨s, some .notImplementedCmd, []⟩
  | some .G3 => ⟨s, some .notImplementedCmd, []⟩
  | some .G4 =>
    match g.p with
    | none => ⟨s, some .pNotSpecified, []⟩
    | some _ =>
      if gline_get g.p 0 1 < 0 then ⟨s, some .badDelay, []⟩
      else ⟨s, none, []⟩
  | some .G17 => ⟨{ s with plane := .XY }, none, []⟩
  | some .G18 => ⟨{ s with plane := .ZX }, none, []⟩
  | some .G19 => ⟨{ s with plane := .YZ }, none, []⟩
  | some .G20 => ⟨{ s with convertCoordinates := 127/5 }, none, []⟩
  | some .G21 => ⟨{ s with convertCoordinates := 1 }, none, []⟩
  | some .G28 =>
    let r := safe_zero hal s g.x.isSome g.y.isSome true g.n.isSome g.a.isSome
    bind_move r (fun s1 =>
      if !(hal.calibrateOk g.x.isSome g.y.isSome true) then
        ⟨s1, some .calibrateFailed, []⟩
      else ⟨s1, none, []⟩)
  | some .G53 => ⟨{ s with localOffset := Coordinates.init 0 0 0 0 0 0 0 0 }, none, []⟩
  | some .G90 => ⟨{ s with absoluteCoordinates := true }, none, []⟩
  | some .G91 => ⟨{ s with absoluteCoordinates := false }, none, []⟩
  | some .G92 =>
    if gline_has_coordinates g then
      ⟨{ s with localOffset := s.position.sub (gline_coordinates g
          (Coordinates.init (s.position.x - s.localOffset.x)
            (s.position.y - s.localOffset.y) (s.position.z - s.localOffset.z)
            (s.position.e - s.localOffset.e) (s.position.q - s.localOffset.q)
            (s.position.n - s.localOffset.n) (s.position.a - s.localOffset.a)
            (s.position.b - s.localOffset.b))
          s.convertCoordinates) }, none, []⟩
    else ⟨{ s with localOffset := s.position }, none, []⟩
  | some .G93 => g93_handler hal s
  | some .M2 => reset_state s
  | some .M30 => reset_state s
  | some .M3 => ⟨s, some .notImplementedCmd, []⟩
  | some .M5 => ⟨s, some .notImplementedCmd, []⟩
  | some .M82 =>
    if !s.absoluteCoordinates then ⟨s, some .extruderModeIncompatible, []⟩
    else ⟨s, none, []⟩
  | some .M83 =>
    if s.absoluteCoordinates then ⟨s, some .extruderModeIncompatible, []⟩
    else ⟨s, none, []⟩
  | some .M84 => ⟨s, none, []⟩
  | some .M104 => heat_handler hal s g .extruder
  | some .M109 => heat_handler hal s g .extruder
  | some .M140 => heat_handler hal s g .bed
  | some .M190 => heat_handler hal s g .bed
  | some .M105 =>
    if !hal.extruderTempOk && !hal.bedTempOk then
      ⟨s, some .cannotMeasureTemperature, []⟩
    else ⟨s, none, []⟩
  | some .M106 => ⟨s, none, []⟩
  | some .M107 => ⟨s, none, []⟩
  | some .M111 => ⟨s, none, []⟩
  | some .M114 => ⟨s, none, []⟩
  | some .unknownCmd => ⟨s, some .unknownCommand, []⟩
  | none => ⟨s, none, []⟩

/-- `GMachine.do_command`: `None` lines are ignored; the command token is
defaulted, the delta and feed rate are computed, the minimum-feed check
runs, the command dispatches, and on success the feed rate is persisted
(`self._velocity = velocity`). -/
def do_command (hal : Hal) (s : MachineState) (g : Option GLine) : MoveRes :=
  match g with
  | none => ⟨s, none, []⟩
  | some gc =>
    let c := effective_command gc
    let delta := command_delta s gc
    let velocity := command_velocity s gc
    if velocity < MIN_VELOCITY_MM_PER_MIN then ⟨s, some .feedSpeedTooLow, []⟩
    else
      let res := dispatch hal s gc c delta velocity
      match res.error with
      | some _ => res
      | none => ⟨{ res.state with velocity := velocity }, none, res.moves⟩

/-- A fully permissive hardware oracle: every `hal.move` succeeds, the
generator reports zero peak velocities (all velocity checks pass),
calibration succeeds, both sensors read. -/
def hal_ok : Hal :=
  ⟨fun _ => 0, fun _ _ => Coordinates.init 0 0 0 0 0 0 0 0,
   fun _ _ => true, fun _ _ _ => true, true, true, []⟩

/-- The permissive oracle except that `hal.calibrate` reports failure. -/
def hal_calibrate_fail : Hal :=
  { hal_ok with calibrateOk := fun _ _ _ => false }

/-- The empty command line (all letters absent). -/
def gline_empty : GLine :=
  ⟨none, none, none, none, none, none, none, none, none, none, none, none⟩

end GMachine

/-! Theorems. -/

theorem roundHalfEven_intCast (z : ℤ) : roundHalfEven (z : ℚ) = z := by
  unfold roundHalfEven
  rw [Int.floor_intCast]
  norm_num

theorem round10_idem (q : ℚ) : round10 (round10 q) = round10 q := by
  unfold round10
  rw [div_mul_cancel₀ _ (by norm_num : ((10 : ℚ) ^ 10) ≠ 0), roundHalfEven_intCast]

theorem init_normalized (x y z e q n a b : ℚ) :
    Coordinates.normalized (Coordinates.init x y z e q n a b) := by
  unfold Coordinates.normalized Coordinates.init
  exact ⟨round10_idem x, round10_idem y, round10_idem z, round10_idem e,
    round10_idem q, round10_idem n, round10_idem a, round10_idem b⟩

/-- C7 (amended part): every arithmetic operation of the coordinate type
— add, subtract, scale, divide, abs, and grid-rounding — returns a new
instance all of whose components are normalized to 10 fractional decimal
digits (fixed points of the constructor's rounding). -/
theorem C7_operations_return_normalized (c o : Coordinates) (v : ℚ)
    (base_x base_y base_z base_e base_q base_n base_a base_b : ℚ) :
    Coordinates.normalized (c.add o) ∧ Coordinates.normalized (c.sub o)
      ∧ Coordinates.normalized (c.mul v) ∧ Coordinates.normalized (c.div v)
      ∧ Coordinates.normalized c.abs
      ∧ Coordinates.normalized
          (c.round base_x base_y base_z base_e base_q base_n base_a base_b) := by
  exact ⟨init_normalized _ _ _ _ _ _ _ _, init_normalized _ _ _ _ _ _ _ _,
    init_normalized _ _ _ _ _ _ _ _, init_normalized _ _ _ _ _ _ _ _,
    init_normalized _ _ _ _ _ _ _ _, init_normalized _ _ _ _ _ _ _ _⟩

/-- C7 (counterexample): the raw in-place component assignment the core
performs in `PulseGeneratorLinear.__init__` (pulses.py line 377,
`velocity_mm_per_min_axis.x = velocity_mm_per_min_axis.x * factor`, here
with factor 1/2 as produced by `_adjust_velocity` when an axis is at twice
its limit) mutates a constructed instance and yields a component that is
not normalized to 10 fractional digits, refuting the claim that no
component of any instance is ever mutated after construction and that all
instances stay normalized. -/
theorem C7_counterexample_raw_assignment :
    Coordinates.normalized (Coordinates.init (1 / 10 ^ 10) 0 0 0 0 0 0 0)
      ∧ ¬ Coordinates.normalized
          (Coordinates.setX (Coordinates.init (1 / 10 ^ 10) 0 0 0 0 0 0 0)
            ((Coordinates.init (1 / 10 ^ 10) 0 0 0 0 0 0 0).x * (1 / 2))) := by
  constructor
  · exact init_normalized _ _ _ _ _ _ _ _
  · intro hn
    have hx := hn.1
    norm_num [Coordinates.setX, Coordinates.init, round10, roundHalfEven] at hx

/-- C9: the bounding-volume containment test is symmetric in its two
corner arguments. -/
theorem C9_is_in_aabb_symmetric (c p1 p2 : Coordinates) :
    c.is_in_aabb p1 p2 = c.is_in_aabb p2 p1 := by
  unfold Coordinates.is_in_aabb
  rw [max_comm p2.x p1.x, min_comm p2.z p1.z, max_comm p2.z p1.z,
    min_comm p2.n p1.n, max_comm p2.n p1.n, min_comm p2.a p1.a,
    max_comm p2.a p1.a]

/-- C10: `parse_line` accepts the line `X1..2` — the token scan stores the
letter `X` with the value string `1..2` and raises no parse error — even
though `1..2` is not a valid decimal number (the conversion `GCode.get`
performs with `float` would fail); acceptance by the parser therefore does
not guarantee well-formed decimal values. -/
theorem C10_parser_accepts_invalid_decimal :
    GCode.parse_line ['X', '1', '.', '.', '2']
        = .ok [('X', ['1', '.', '.', '2'])]
      ∧ GCode.is_valid_decimal ['1', '.', '.', '2'] = false := by
  constructor
  · decide
  · decide

theorem keys_dedup_length_iff (m : List (Char × List Char)) :
    (GCode.keys m).dedup.length = m.length ↔ (GCode.keys m).Nodup := by
  have hk : (GCode.keys m).length = m.length := List.length_map _ _
  rw [← hk]
  constructor
  · intro h
    have h2 := List.Sublist.eq_of_length (List.dedup_sublist _) h
    rw [← h2]
    exact List.nodup_dedup _
  · intro h
    rw [List.dedup_eq_self.mpr h]

/-- C8: `parse_line` yields the no-command outcome exactly on lines whose
stripped form is empty or starts with `%`, and raises a parse error
exactly when the stripped line is malformed: its characters do not
decompose completely into letter+number tokens, or it has duplicate
letters, or it names both `G` and `M`, or both `N` and `M`. -/
theorem C8_parse_error_characterization (line : List Char) :
    (GCode.parse_line line = .noCommand ↔
        GCode.clean_line (GCode.to_upper line) = []
          ∨ (GCode.clean_line (GCode.to_upper line)).head? = some '%')
      ∧ (GCode.is_parse_error (GCode.parse_line line) = true ↔
        (¬(GCode.clean_line (GCode.to_upper line) = []
            ∨ (GCode.clean_line (GCode.to_upper line)).head? = some '%')
          ∧ GCode.malformed (GCode.clean_line (GCode.to_upper line)))) := by
  simp only [GCode.parse_line, GCode.malformed]
  split_ifs with h1 h2 h3 h4 h5 h6 h7 <;>
    simp_all [GCode.is_parse_error, GCode.covered_length, keys_dedup_length_iff,
      List.length_eq_zero]
  exact Or.inl fun h => h1 (List.length_eq_zero.mp h.symm)

theorem adjust_velocity_disabled (v M : ℚ) :
    Pulses.adjust_velocity false v M = v := rfl

theorem adjust_velocity_enabled_min (v M : ℚ) (hv : 0 ≤ v) (hM : 0 < M) :
    Pulses.adjust_velocity true v M = min v (M / 60) := by
  unfold Pulses.adjust_velocity SECONDS_IN_MINUTE
  simp only [Bool.not_true, Bool.false_eq_true, if_false]
  by_cases h : v * 60 > M
  · have hv0 : 0 < v := by nlinarith
    have hM60 : M / 60 < v := by
      rw [div_lt_iff₀ (by norm_num : (0:ℚ) < 60)]
      linarith [h]
    have hdd : M / v / 60 = M / 60 / v := by ring
    have hlt : M / v / 60 ≤ 1 := by
      rw [hdd, div_le_one hv0]
      linarith [hM60]
    rw [if_pos h, min_eq_right hlt, min_eq_right hM60.le]
    field_simp
    ring
  · have hle : v ≤ M / 60 := by
      rw [le_div_iff₀ (by norm_num : (0:ℚ) < 60)]
      linarith [not_lt.mp h]
    rw [if_neg h, min_eq_left hle, mul_one]

theorem move_linear_overspeed_no_moves (hal : GMachine.Hal)
    (s : GMachine.MachineState) (d : Coordinates) (v : ℚ)
    (h : (GMachine.move_linear hal s d v).error = some .outOfMaximumSpeed) :
    (GMachine.move_linear hal s d v).moves = [] := by
  simp only [GMachine.move_linear] at h ⊢
  split_ifs at h ⊢ <;> simp_all

/-- C3 (amended): with auto-adjustment enabled, the pulse generator clamps
each axis independently — every axis's peak velocity becomes the minimum
of its input and its own configured limit over 60 (so an over-limit axis
lands exactly at its own limit while other axes keep their own values,
with no shared factor); with auto-adjustment disabled the velocities pass
through unchanged, and the machine's velocity check reports a hard error
exactly when some axis's reported peak in mm/min (after the vector type's
10-digit normalization) exceeds its configured maximum — the check runs in
`_move_linear` before the generator is handed to `hal.move`, so an
out-of-maximum-speed error leaves the hardware move log empty. -/
theorem C3_per_axis_velocity_clamp (w : Coordinates)
    (hx : 0 ≤ w.x) (hy : 0 ≤ w.y) (hz : 0 ≤ w.z) (he : 0 ≤ w.e)
    (hq : 0 ≤ w.q) (hn : 0 ≤ w.n) (ha : 0 ≤ w.a) (hb : 0 ≤ w.b) :
    Pulses.max_velocity_stage true w =
        ⟨min w.x (MAX_VELOCITY_MM_PER_MIN_X / 60), min w.y (MAX_VELOCITY_MM_PER_MIN_Y / 60),
         min w.z (MAX_VELOCITY_MM_PER_MIN_Z / 60), min w.e (MAX_VELOCITY_MM_PER_MIN_E / 60),
         min w.q (MAX_VELOCITY_MM_PER_MIN_Q / 60), min w.n (MAX_VELOCITY_MM_PER_MIN_N / 60),
         min w.a (MAX_VELOCITY_MM_PER_MIN_A / 60), min w.b (MAX_VELOCITY_MM_PER_MIN_B / 60)⟩
      ∧ Pulses.max_velocity_stage false w = w
      ∧ (GMachine.check_velocity_errors
            ((Pulses.max_velocity_stage false w).mul SECONDS_IN_MINUTE) = true ↔
          (round10 (w.x * 60) > MAX_VELOCITY_MM_PER_MIN_X
            ∨ round10 (w.y * 60) > MAX_VELOCITY_MM_PER_MIN_Y
            ∨ round10 (w.z * 60) > MAX_VELOCITY_MM_PER_MIN_Z
            ∨ round10 (w.e * 60) > MAX_VELOCITY_MM_PER_MIN_E
            ∨ round10 (w.q * 60) > MAX_VELOCITY_MM_PER_MIN_Q
            ∨ round10 (w.n * 60) > MAX_VELOCITY_MM_PER_MIN_N
            ∨ round10 (w.a * 60) > MAX_VELOCITY_MM_PER_MIN_A
            ∨ round10 (w.b * 60) > MAX_VELOCITY_MM_PER_MIN_B))
      ∧ (∀ (hal : GMachine.Hal) (s : GMachine.MachineState) (d : Coordinates) (v : ℚ),
          (GMachine.move_linear hal s d v).error = some .outOfMaximumSpeed →
            (GMachine.move_linear hal s d v).moves = []) := by
  refine ⟨?_, ?_, ?_, move_linear_overspeed_no_moves⟩
  · unfold Pulses.max_velocity_stage
    rw [adjust_velocity_enabled_min _ _ hx (by norm_num [MAX_VELOCITY_MM_PER_MIN_X]),
      adjust_velocity_enabled_min _ _ hy (by norm_num [MAX_VELOCITY_MM_PER_MIN_Y]),
      adjust_velocity_enabled_min _ _ hz (by norm_num [MAX_VELOCITY_MM_PER_MIN_Z]),
      adjust_velocity_enabled_min _ _ he (by norm_num [MAX_VELOCITY_MM_PER_MIN_E]),
      adjust_velocity_enabled_min _ _ hq (by norm_num [MAX_VELOCITY_MM_PER_MIN_Q]),
      adjust_velocity_enabled_min _ _ hn (by norm_num [MAX_VELOCITY_MM_PER_MIN_N]),
      adjust_velocity_enabled_min _ _ ha (by norm_num [MAX_VELOCITY_MM_PER_MIN_A]),
      adjust_velocity_enabled_min _ _ hb (by norm_num [MAX_VELOCITY_MM_PER_MIN_B])]
  · unfold Pulses.max_velocity_stage
    simp only [adjust_velocity_disabled]
  · unfold Pulses.max_velocity_stage
    simp only [adjust_velocity_disabled]
    simp [GMachine.check_velocity_errors, Coordinates.mul, Coordinates.init,
      SECONDS_IN_MINUTE, or_assoc]

/-- C3 (counterexample): with auto-adjustment enabled and input peak
velocities of 200 mm/s on X (twice its 6000 mm/min limit) and 10 mm/s on
Y, the stage clamps X alone to exactly 100 mm/s and leaves Y at 10 mm/s;
the single common factor the claim mandates (1/2, putting the worst
offender exactly at its limit) would have scaled Y to 5 mm/s, so the axes
are not scaled by one shared factor. -/
theorem C3_counterexample_independent_clamp :
    (⟨200, 10, 0, 0, 0, 0, 0, 0⟩ : Coordinates).x * 60 > MAX_VELOCITY_MM_PER_MIN_X
      ∧ (1 / 2 : ℚ) * ((⟨200, 10, 0, 0, 0, 0, 0, 0⟩ : Coordinates).x * 60)
          = MAX_VELOCITY_MM_PER_MIN_X
      ∧ Pulses.max_velocity_stage true ⟨200, 10, 0, 0, 0, 0, 0, 0⟩
          = ⟨100, 10, 0, 0, 0, 0, 0, 0⟩
      ∧ (⟨100, 10, 0, 0, 0, 0, 0, 0⟩ : Coordinates)
          ≠ ⟨200 * (1 / 2), 10 * (1 / 2), 0, 0, 0, 0, 0, 0⟩ := by
  refine ⟨by norm_num [MAX_VELOCITY_MM_PER_MIN_X],
    by norm_num [MAX_VELOCITY_MM_PER_MIN_X], ?_, by
      intro h
      have := congrArg Coordinates.y h
      norm_num at this⟩
  norm_num [Pulses.max_velocity_stage, Pulses.adjust_velocity,
    SECONDS_IN_MINUTE, MAX_VELOCITY_MM_PER_MIN_X, MAX_VELOCITY_MM_PER_MIN_Y,
    MAX_VELOCITY_MM_PER_MIN_Z, MAX_VELOCITY_MM_PER_MIN_E,
    MAX_VELOCITY_MM_PER_MIN_Q, MAX_VELOCITY_MM_PER_MIN_N,
    MAX_VELOCITY_MM_PER_MIN_A, MAX_VELOCITY_MM_PER_MIN_B]

/-- C3 (witness): the amended clamp theorem instantiated at the concrete
input (120, 30, 0, 0, 0, 0, 0, 0) mm/s. -/
theorem C3_witness :
    Pulses.max_velocity_stage true ⟨120, 30, 0, 0, 0, 0, 0, 0⟩ =
        ⟨min 120 (MAX_VELOCITY_MM_PER_MIN_X / 60), min 30 (MAX_VELOCITY_MM_PER_MIN_Y / 60),
         min 0 (MAX_VELOCITY_MM_PER_MIN_Z / 60), min 0 (MAX_VELOCITY_MM_PER_MIN_E / 60),
         min 0 (MAX_VELOCITY_MM_PER_MIN_Q / 60), min 0 (MAX_VELOCITY_MM_PER_MIN_N / 60),
         min 0 (MAX_VELOCITY_MM_PER_MIN_A / 60), min 0 (MAX_VELOCITY_MM_PER_MIN_B / 60)⟩
      ∧ Pulses.max_velocity_stage false ⟨120, 30, 0, 0, 0, 0, 0, 0⟩
          = ⟨120, 30, 0, 0, 0, 0, 0, 0⟩
      ∧ (GMachine.check_velocity_errors
            ((Pulses.max_velocity_stage false ⟨120, 30, 0, 0, 0, 0, 0, 0⟩).mul
              SECONDS_IN_MINUTE) = true ↔
          (round10 ((120 : ℚ) * 60) > MAX_VELOCITY_MM_PER_MIN_X
            ∨ round10 ((30 : ℚ) * 60) > MAX_VELOCITY_MM_PER_MIN_Y
            ∨ round10 ((0 : ℚ) * 60) > MAX_VELOCITY_MM_PER_MIN_Z
            ∨ round10 ((0 : ℚ) * 60) > MAX_VELOCITY_MM_PER_MIN_E
            ∨ round10 ((0 : ℚ) * 60) > MAX_VELOCITY_MM_PER_MIN_Q
            ∨ round10 ((0 : ℚ) * 60) > MAX_VELOCITY_MM_PER_MIN_N
            ∨ round10 ((0 : ℚ) * 60) > MAX_VELOCITY_MM_PER_MIN_A
            ∨ round10 ((0 : ℚ) * 60) > MAX_VELOCITY_MM_PER_MIN_B))
      ∧ (∀ (hal : GMachine.Hal) (s : GMachine.MachineState) (d : Coordinates) (v : ℚ),
          (GMachine.move_linear hal s d v).error = some .outOfMaximumSpeed →
            (GMachine.move_linear hal s d v).moves = []) :=
  C3_per_axis_velocity_clamp ⟨120, 30, 0, 0, 0, 0, 0, 0⟩
    (by norm_num) (by norm_num) (by norm_num) (by norm_num)
    (by norm_num) (by norm_num) (by norm_num) (by norm_num)

theorem min_pseudo_time_none (ts : List (Option ℚ))
    (h : Pulses.min_pseudo_time ts = none) : ∀ v : ℚ, some v ∉ ts := by
  induction ts with
  | nil => simp
  | cons hd tl ih =>
    cases hd with
    | none =>
      simp only [Pulses.min_pseudo_time] at h
      intro v hv
      rcases List.mem_cons.mp hv with h1 | h1
      · exact Option.noConfusion h1
      · exact ih h v h1
    | some w =>
      simp only [Pulses.min_pseudo_time] at h
      cases h2 : Pulses.min_pseudo_time tl <;> rw [h2] at h <;> simp at h

theorem min_pseudo_time_le (ts : List (Option ℚ)) (m : ℚ)
    (hm : Pulses.min_pseudo_time ts = some m) :
    ∀ v : ℚ, some v ∈ ts → m ≤ v := by
  induction ts generalizing m with
  | nil => simp [Pulses.min_pseudo_time] at hm
  | cons hd tl ih =>
    cases hd with
    | none =>
      simp only [Pulses.min_pseudo_time] at hm
      intro v hv
      rcases List.mem_cons.mp hv with h1 | h1
      · exact Option.noConfusion h1
      · exact ih m hm v h1
    | some w =>
      simp only [Pulses.min_pseudo_time] at hm
      intro v hv
      cases h2 : Pulses.min_pseudo_time tl <;> rw [h2] at hm
      · simp only [Option.some.injEq] at hm
        rcases List.mem_cons.mp hv with h1 | h1
        · cases h1
          exact hm.ge
        · exact absurd h1 (min_pseudo_time_none tl h2 v)
      · simp only [Option.some.injEq] at hm
        rcases List.mem_cons.mp hv with h1 | h1
        · cases h1
          rw [← hm]
          exact min_le_left _ _
        · calc m ≤ _ := hm ▸ min_le_right _ _
            _ ≤ v := ih _ h2 v h1

theorem min_pseudo_time_mem (ts : List (Option ℚ)) (m : ℚ)
    (hm : Pulses.min_pseudo_time ts = some m) : some m ∈ ts := by
  induction ts generalizing m with
  | nil => simp [Pulses.min_pseudo_time] at hm
  | cons hd tl ih =>
    cases hd with
    | none =>
      simp only [Pulses.min_pseudo_time] at hm
      exact List.mem_cons_of_mem _ (ih m hm)
    | some w =>
      simp only [Pulses.min_pseudo_time] at hm
      cases h2 : Pulses.min_pseudo_time tl <;> rw [h2] at hm <;>
        simp only [Option.some.injEq] at hm
      · rw [← hm]
        exact List.mem_cons_self _ _
      · rcases min_choice w _ with hmin | hmin <;> rw [← hm]
        · rw [hmin]
          exact List.mem_cons_self _ _
        · rw [hmin]
          exact List.mem_cons_of_mem _ (ih _ h2)

theorem linear_pseudo_time_nonneg (ax : Pulses.LinearAxisState)
    (hp : 0 < ax.pulses_per_mm) (hv : 0 < ax.velocity_mm_per_sec) (v : ℚ)
    (h : Pulses.linear_pseudo_time ax = some v) : 0 ≤ v := by
  unfold Pulses.linear_pseudo_time at h
  split_ifs at h with hc
  simp only [Option.some.injEq] at h
  rw [← h]
  positivity

theorem linear_pseudo_time_some (ax : Pulses.LinearAxisState) (v : ℚ)
    (h : Pulses.linear_pseudo_time ax = some v) :
    ax.total_pulses ≠ 0 ∧ ax.iteration < ax.total_pulses
      ∧ v = (ax.iteration : ℚ) / ax.pulses_per_mm / ax.velocity_mm_per_sec := by
  unfold Pulses.linear_pseudo_time at h
  split_ifs at h with hc
  push_neg at hc
  simp only [Option.some.injEq] at h
  exact ⟨hc.1, hc.2, h.symm⟩

/-- Every pseudo-time offered after a step is strictly later than the
pseudo-time that step emitted. -/
theorem gen_step_next_gt (axes : List Pulses.LinearAxisState)
    (hwf : Pulses.axes_wf axes) (m : ℚ) (axes' : List Pulses.LinearAxisState)
    (h : Pulses.gen_step axes = some (m, axes')) :
    ∀ v : ℚ, some v ∈ axes'.map Pulses.linear_pseudo_time → m < v := by
  unfold Pulses.gen_step at h
  cases hmin : Pulses.min_pseudo_time (axes.map Pulses.linear_pseudo_time) <;>
    rw [hmin] at h
  · simp at h
  case some m0 =>
  simp only [Option.some.injEq, Prod.mk.injEq] at h
  obtain ⟨hm0, haxes⟩ := h
  intro v hv
  rw [← hm0]
  rw [← haxes, List.map_map] at hv
  obtain ⟨ax, haxm, hax⟩ := List.mem_map.mp hv
  simp only [Function.comp_apply] at hax
  cases hpt : Pulses.linear_pseudo_time ax with
  | none =>
    simp only [hpt] at hax
    exact Option.noConfusion hax
  | some v0 =>
    have hv0m : m0 ≤ v0 := min_pseudo_time_le _ _ hmin v0
      (List.mem_map.mpr ⟨ax, haxm, hpt⟩)
    by_cases hle : v0 ≤ m0
    · have hveq : v0 = m0 := le_antisymm hle hv0m
      simp only [hpt, if_pos hle] at hax
      obtain ⟨ht1, hlt1, hv0eq⟩ := linear_pseudo_time_some ax v0 hpt
      obtain ⟨ht2, hlt2, hveq2⟩ := linear_pseudo_time_some _ v hax
      obtain ⟨hp, hvel⟩ := hwf ax haxm ht1
      have hgoal : v0 < v := by
        rw [hv0eq, hveq2]
        dsimp only
        rw [div_div, div_div, div_lt_div_iff_of_pos_right (by positivity)]
        exact_mod_cast Nat.lt_succ_self _
      exact hveq ▸ hgoal
    · simp only [hpt, if_neg hle] at hax
      simp only [Option.some.injEq] at hax
      rw [← hax]
      exact lt_of_not_le hle

/-- Pseudo-time of the element the step emits. -/
theorem gen_step_emits_mem (axes : List Pulses.LinearAxisState) (m : ℚ)
    (axes' : List Pulses.LinearAxisState)
    (h : Pulses.gen_step axes = some (m, axes')) :
    some m ∈ axes.map Pulses.linear_pseudo_time := by
  unfold Pulses.gen_step at h
  cases hmin : Pulses.min_pseudo_time (axes.map Pulses.linear_pseudo_time) <;>
    rw [hmin] at h
  · simp at h
  case some m0 =>
  simp only [Option.some.injEq, Prod.mk.injEq] at h
  obtain ⟨hm0, _⟩ := h
  rw [← hm0]
  exact min_pseudo_time_mem _ _ hmin

theorem to_accelerated_time_def (Ta Tl c p : ℝ) :
    Pulses.to_accelerated_time Ta Tl c p =
      if Real.sqrt (p * c) ≤ Ta then Real.sqrt (p * c)
      else if Ta + p - Ta ^ 2 / c - Ta - Tl ≤ 0 then Ta + p - Ta ^ 2 / c
      else 2 * Ta + Tl -
        (if Ta ^ 2 - c * (Ta + p - Ta ^ 2 / c - Ta - Tl) > 0 then
          Real.sqrt (Ta ^ 2 - c * (Ta + p - Ta ^ 2 / c - Ta - Tl)) else 0) := rfl

/-- Monotonicity of the pseudo-time to real-time map over the three
profile branches. -/
theorem to_accelerated_time_mono (Ta Tl c : ℝ) (hTa : 0 ≤ Ta) (hTl : 0 ≤ Tl)
    (hc : 0 < c) (p1 p2 : ℝ) (hp1 : 0 ≤ p1) (h12 : p1 ≤ p2) :
    Pulses.to_accelerated_time Ta Tl c p1 ≤ Pulses.to_accelerated_time Ta Tl c p2 := by
  have hp2 : 0 ≤ p2 := hp1.trans h12
  have hsq12 : Real.sqrt (p1 * c) ≤ Real.sqrt (p2 * c) :=
    Real.sqrt_le_sqrt (by nlinarith)
  have hsq1nn : 0 ≤ Real.sqrt (p1 * c) := Real.sqrt_nonneg _
  rw [to_accelerated_time_def, to_accelerated_time_def]
  by_cases hA2 : Real.sqrt (p2 * c) ≤ Ta
  · rw [if_pos (hsq12.trans hA2), if_pos hA2]
    exact hsq12
  · rw [if_neg hA2]
    push_neg at hA2
    have hsq2 : Real.sqrt (p2 * c) ^ 2 = p2 * c := Real.sq_sqrt (by nlinarith)
    have hp2c : Ta ^ 2 < p2 * c := by nlinarith [Real.sqrt_nonneg (p2 * c)]
    have hp2A : Ta ^ 2 / c < p2 := (div_lt_iff₀ hc).mpr (by nlinarith)
    by_cases hB2 : Ta + p2 - Ta ^ 2 / c - Ta - Tl ≤ 0
    · rw [if_pos hB2]
      by_cases hA1 : Real.sqrt (p1 * c) ≤ Ta
      · rw [if_pos hA1]
        linarith [hp2A, hA1]
      · rw [if_neg hA1]
        have hB1 : Ta + p1 - Ta ^ 2 / c - Ta - Tl ≤ 0 := by linarith
        rw [if_pos hB1]
        linarith
    · rw [if_neg hB2]
      push_neg at hB2
      have hterm2 : (if Ta ^ 2 - c * (Ta + p2 - Ta ^ 2 / c - Ta - Tl) > 0 then
          Real.sqrt (Ta ^ 2 - c * (Ta + p2 - Ta ^ 2 / c - Ta - Tl)) else 0) ≤ Ta := by
        split_ifs with hd
        · calc Real.sqrt (Ta ^ 2 - c * (Ta + p2 - Ta ^ 2 / c - Ta - Tl))
              ≤ Real.sqrt (Ta ^ 2) := Real.sqrt_le_sqrt (by nlinarith)
            _ = Ta := Real.sqrt_sq hTa
        · exact hTa
      by_cases hA1 : Real.sqrt (p1 * c) ≤ Ta
      · rw [if_pos hA1]
        linarith
      · rw [if_neg hA1]
        by_cases hB1 : Ta + p1 - Ta ^ 2 / c - Ta - Tl ≤ 0
        · rw [if_pos hB1]
          linarith
        · rw [if_neg hB1]
          push_neg at hB1
          have hdge : Ta ^ 2 - c * (Ta + p2 - Ta ^ 2 / c - Ta - Tl)
              ≤ Ta ^ 2 - c * (Ta + p1 - Ta ^ 2 / c - Ta - Tl) := by nlinarith
          have hterm12 : (if Ta ^ 2 - c * (Ta + p2 - Ta ^ 2 / c - Ta - Tl) > 0 then
                Real.sqrt (Ta ^ 2 - c * (Ta + p2 - Ta ^ 2 / c - Ta - Tl)) else 0)
              ≤ (if Ta ^ 2 - c * (Ta + p1 - Ta ^ 2 / c - Ta - Tl) > 0 then
                Real.sqrt (Ta ^ 2 - c * (Ta + p1 - Ta ^ 2 / c - Ta - Tl)) else 0) := by
            by_cases h2p : Ta ^ 2 - c * (Ta + p2 - Ta ^ 2 / c - Ta - Tl) > 0
            · have h1p : Ta ^ 2 - c * (Ta + p1 - Ta ^ 2 / c - Ta - Tl) > 0 :=
                lt_of_lt_of_le h2p hdge
              rw [if_pos h2p, if_pos h1p]
              exact Real.sqrt_le_sqrt hdge
            · rw [if_neg h2p]
              split_ifs with h1p
              · exact Real.sqrt_nonneg _
              · exact le_refl 0
          linarith

/-- C4: across two consecutive pulse iterations of a linear generator, the
real timestamp assigned to the later iteration's pulses is never earlier
than the one assigned to the previous iteration: the minimum-across-axes
pseudo-time strictly increases step to step, and the pseudo-to-real
mapping is monotone over the acceleration, cruise, and braking branches. -/
theorem C4_timestamps_monotone (axes : List Pulses.LinearAxisState)
    (Ta Tl c : ℝ) (m m' : ℚ)
    (axes' axes'' : List Pulses.LinearAxisState)
    (hwf : Pulses.axes_wf axes) (hTa : 0 ≤ Ta) (hTl : 0 ≤ Tl) (hc : 0 < c)
    (h1 : Pulses.gen_step axes = some (m, axes'))
    (h2 : Pulses.gen_step axes' = some (m', axes'')) :
    Pulses.to_accelerated_time Ta Tl c (m : ℝ)
      ≤ Pulses.to_accelerated_time Ta Tl c ((m' : ℚ) : ℝ) := by
  have hmem' : some m' ∈ axes'.map Pulses.linear_pseudo_time :=
    gen_step_emits_mem axes' m' axes'' h2
  have hlt : m < m' := gen_step_next_gt axes hwf m axes' h1 m' hmem'
  have hmem : some m ∈ axes.map Pulses.linear_pseudo_time :=
    gen_step_emits_mem axes m axes' h1
  obtain ⟨ax, haxm, hax⟩ := List.mem_map.mp hmem
  have hm0 : 0 ≤ m := by
    by_cases htot : ax.total_pulses = 0
    · unfold Pulses.linear_pseudo_time at hax
      rw [if_pos (Or.inl htot)] at hax
      exact absurd hax (by simp)
    · obtain ⟨hp, hv⟩ := hwf ax haxm htot
      exact linear_pseudo_time_nonneg ax hp hv m hax
  exact to_accelerated_time_mono Ta Tl c hTa hTl hc (m : ℝ) (m' : ℝ)
    (by exact_mod_cast hm0) (by exact_mod_cast hlt.le)

/-- C4 (witness): a one-axis generator (100 steps/mm collapsed to 1 for
readability, velocity 1 mm/s, 2 pulses) stepped twice from iteration 0,
with profile parameters Ta = Tl = 1, c = 1. -/
theorem C4_witness :
    Pulses.to_accelerated_time 1 1 1 ((0 : ℚ) : ℝ)
      ≤ Pulses.to_accelerated_time 1 1 1 ((1 : ℚ) : ℝ) :=
  C4_timestamps_monotone [⟨1, 1, 2, 0⟩] 1 1 1 0 1 [⟨1, 1, 2, 1⟩] [⟨1, 1, 2, 2⟩]
    (by
      intro ax hax htot
      simp only [List.mem_singleton] at hax
      subst hax
      norm_num)
    (by norm_num) (by norm_num) (by norm_num)
    (by norm_num [Pulses.gen_step, Pulses.min_pseudo_time, Pulses.linear_pseudo_time])
    (by norm_num [Pulses.gen_step, Pulses.min_pseudo_time, Pulses.linear_pseudo_time])

/-- C1 (code evaluation at the failing input): a `G1` targeting `X=-1`
from machine position zero is accepted by the interpreter — the envelope
check passes because `is_in_aabb` applies only the radial test
`(x+40)² + y² ≤ 180²` and no per-axis lower bound on x — so no command
error is raised, `hal.move` is invoked, and the position is committed to
`X = -1`; the claim (and the repository's own tests
`test_coordinates.test_aabb` and `test_gmachine.test_g0_g1`) requires a
command error and an unchanged position instead. -/
theorem C1_negative_x_move_accepted :
    (GMachine.do_command GMachine.hal_ok GMachine.initial_state
        (some { GMachine.gline_empty with x := some (-1), cmd := some .G1 })).error
        = none
      ∧ (GMachine.do_command GMachine.hal_ok GMachine.initial_state
          (some { GMachine.gline_empty with x := some (-1), cmd := some .G1 })).state.position
        = Coordinates.init (-1) 0 0 0 0 0 0 0
      ∧ (GMachine.do_command GMachine.hal_ok GMachine.initial_state
          (some { GMachine.gline_empty with x := some (-1), cmd := some .G1 })).moves
        ≠ [] := by
  norm_num [GMachine.do_command, GMachine.effective_command, GMachine.command_delta,
    GMachine.command_velocity, GMachine.dispatch, GMachine.move_linear,
    GMachine.check_delta_ok, GMachine.check_velocity_errors, GMachine.bind_move,
    GMachine.gline_get, GMachine.gline_coordinates, GMachine.gline_has_coordinates,
    GMachine.gline_empty, GMachine.hal_ok, GMachine.initial_state, GMachine.reset_velocity,
    Coordinates.init, Coordinates.add, Coordinates.sub, Coordinates.round,
    Coordinates.is_zero, Coordinates.is_in_aabb, round10, roundHalfEven,
    copysign, distance_pivot_tool_mm, distance_pivot_FFF_nozzle,
    TABLE_SIZE_Z_MM, TABLE_SIZE_RADIUS_MM, MAX_ROTATION_N_MM, MAX_TILT_ANGLE,
    MAX_VELOCITY_MM_PER_MIN_X, MAX_VELOCITY_MM_PER_MIN_Y,
    MAX_VELOCITY_MM_PER_MIN_Z, MAX_VELOCITY_MM_PER_MIN_E,
    MAX_VELOCITY_MM_PER_MIN_Q, MAX_VELOCITY_MM_PER_MIN_N,
    MAX_VELOCITY_MM_PER_MIN_A, MAX_VELOCITY_MM_PER_MIN_B,
    MIN_VELOCITY_MM_PER_MIN, STEPPER_PULSES_PER_MM_X, STEPPER_PULSES_PER_MM_Y,
    STEPPER_PULSES_PER_MM_Z, STEPPER_PULSES_PER_MM_E, STEPPER_PULSES_PER_MM_Q,
    STEPPER_PULSES_PER_MM_N, STEPPER_PULSES_PER_MM_A, STEPPER_PULSES_PER_MM_B]

/-- C5 (amended): the G0 velocity equals the claim's minimum-over-present
rule only after widening the presence flags: any Cartesian letter (X, Y or
Z) brings the maxima of all of X, Y, Z and Q into the minimum; with no
axis letter the configured floor is used. -/
theorem C5_rapid_velocity_formula (x y z e q n a b : Bool) :
    GMachine.maximum_compatible_vel x y z e q n a b
      = GMachine.spec_rapid_velocity (x || y || z) (x || y || z) (x || y || z)
          e (q || (x || y || z)) n a b := by
  cases x <;> cases y <;> cases z <;> cases e <;> cases q <;> cases n <;>
    cases a <;> cases b <;>
    norm_num [GMachine.maximum_compatible_vel, GMachine.spec_rapid_velocity,
      MAX_VELOCITY_MM_PER_MIN_X, MAX_VELOCITY_MM_PER_MIN_Y,
      MAX_VELOCITY_MM_PER_MIN_Z, MAX_VELOCITY_MM_PER_MIN_E,
      MAX_VELOCITY_MM_PER_MIN_Q, MAX_VELOCITY_MM_PER_MIN_N,
      MAX_VELOCITY_MM_PER_MIN_A, MAX_VELOCITY_MM_PER_MIN_B,
      MIN_VELOCITY_MM_PER_MIN]

/-- C5 (counterexample): a `G0 X10` line from the initial state moves at
3000 mm/min — `_maximum_compatible_vel` folds Q's maximum in whenever a
Cartesian letter is present — while the claim's minimum over exactly the
present axes (here only X) is 6000 mm/min. -/
theorem C5_counterexample_g0_x10 :
    (GMachine.do_command GMachine.hal_ok GMachine.initial_state
        (some { GMachine.gline_empty with x := some 10, cmd := some .G0 })).moves
        = [(Coordinates.init 10 0 0 0 0 0 0 0, 3000)]
      ∧ GMachine.spec_rapid_velocity true false false false false false false false
        = 6000
      ∧ (3000 : ℚ) ≠ 6000 := by
  refine ⟨?_, by norm_num [GMachine.spec_rapid_velocity, MAX_VELOCITY_MM_PER_MIN_X],
    by norm_num⟩
  norm_num [GMachine.do_command, GMachine.effective_command, GMachine.command_delta,
    GMachine.command_velocity, GMachine.dispatch, GMachine.move_linear,
    GMachine.check_delta_ok, GMachine.check_velocity_errors, GMachine.bind_move,
    GMachine.gline_get, GMachine.gline_coordinates, GMachine.gline_has_coordinates,
    GMachine.gline_empty, GMachine.hal_ok, GMachine.initial_state, GMachine.reset_velocity,
    GMachine.maximum_compatible_vel,
    Coordinates.init, Coordinates.add, Coordinates.sub, Coordinates.round,
    Coordinates.is_zero, Coordinates.is_in_aabb, round10, roundHalfEven,
    copysign, distance_pivot_tool_mm, distance_pivot_FFF_nozzle,
    TABLE_SIZE_Z_MM, TABLE_SIZE_RADIUS_MM, MAX_ROTATION_N_MM, MAX_TILT_ANGLE,
    MAX_VELOCITY_MM_PER_MIN_X, MAX_VELOCITY_MM_PER_MIN_Y,
    MAX_VELOCITY_MM_PER_MIN_Z, MAX_VELOCITY_MM_PER_MIN_E,
    MAX_VELOCITY_MM_PER_MIN_Q, MAX_VELOCITY_MM_PER_MIN_N,
    MAX_VELOCITY_MM_PER_MIN_A, MAX_VELOCITY_MM_PER_MIN_B,
    MIN_VELOCITY_MM_PER_MIN, STEPPER_PULSES_PER_MM_X, STEPPER_PULSES_PER_MM_Y,
    STEPPER_PULSES_PER_MM_Z, STEPPER_PULSES_PER_MM_E, STEPPER_PULSES_PER_MM_Q,
    STEPPER_PULSES_PER_MM_N, STEPPER_PULSES_PER_MM_A, STEPPER_PULSES_PER_MM_B]

/-- C6 (amended): a motion command (G0 or G1, after command defaulting)
whose delta rounds to zero on all eight axes and whose feed rate passes
the global minimum-feed check is a no-op except for feed-rate
persistence: no error is raised, no `hal.move` call is made, and the
machine state is unchanged apart from `self._velocity`, which is still
set to the line's feed value on success. -/
theorem C6_rounded_zero_noop (hal : GMachine.Hal) (s : GMachine.MachineState)
    (gc : GMachine.GLine)
    (heff : GMachine.effective_command gc = some .G0
      ∨ GMachine.effective_command gc = some .G1)
    (hvel : ¬(GMachine.command_velocity s gc < MIN_VELOCITY_MM_PER_MIN))
    (hzero : ((GMachine.command_delta s gc).round
        (1 / STEPPER_PULSES_PER_MM_X) (1 / STEPPER_PULSES_PER_MM_Y)
        (1 / STEPPER_PULSES_PER_MM_Z) (1 / STEPPER_PULSES_PER_MM_E)
        (1 / STEPPER_PULSES_PER_MM_Q) (1 / STEPPER_PULSES_PER_MM_N)
        (1 / STEPPER_PULSES_PER_MM_A) (1 / STEPPER_PULSES_PER_MM_B)).is_zero = true) :
    GMachine.do_command hal s (some gc)
      = ⟨{ s with velocity := GMachine.command_velocity s gc }, none, []⟩ := by
  simp only [GMachine.do_command]
  rw [if_neg hvel]
  rcases heff with h | h <;> rw [h] <;>
    simp only [GMachine.dispatch, GMachine.move_linear] <;>
    rw [if_pos hzero]

/-- C6 (counterexample): `G1 X0.001 F3000` from the initial state rounds
its delta to zero and performs no move and raises no error, yet the
machine state does change: the persisted feed rate becomes 3000 (it was
600), contradicting the claim that all state is unchanged. -/
theorem C6_counterexample_feed_persisted :
    (GMachine.do_command GMachine.hal_ok GMachine.initial_state
        (some { GMachine.gline_empty with
          x := some (1/1000), f := some 3000, cmd := some .G1 })).error = none
      ∧ (GMachine.do_command GMachine.hal_ok GMachine.initial_state
          (some { GMachine.gline_empty with
            x := some (1/1000), f := some 3000, cmd := some .G1 })).moves = []
      ∧ (GMachine.do_command GMachine.hal_ok GMachine.initial_state
          (some { GMachine.gline_empty with
            x := some (1/1000), f := some 3000, cmd := some .G1 })).state.position
        = GMachine.initial_state.position
      ∧ (GMachine.do_command GMachine.hal_ok GMachine.initial_state
          (some { GMachine.gline_empty with
            x := some (1/1000), f := some 3000, cmd := some .G1 })).state.velocity
        ≠ GMachine.initial_state.velocity := by
  norm_num [GMachine.do_command, GMachine.effective_command, GMachine.command_delta,
    GMachine.command_velocity, GMachine.dispatch, GMachine.move_linear,
    GMachine.check_delta_ok, GMachine.check_velocity_errors, GMachine.bind_move,
    GMachine.gline_get, GMachine.gline_coordinates, GMachine.gline_has_coordinates,
    GMachine.gline_empty, GMachine.hal_ok, GMachine.initial_state, GMachine.reset_velocity,
    Coordinates.init, Coordinates.add, Coordinates.sub, Coordinates.round,
    Coordinates.is_zero, Coordinates.is_in_aabb, round10, roundHalfEven,
    copysign, distance_pivot_tool_mm, distance_pivot_FFF_nozzle,
    TABLE_SIZE_Z_MM, TABLE_SIZE_RADIUS_MM, MAX_ROTATION_N_MM, MAX_TILT_ANGLE,
    MAX_VELOCITY_MM_PER_MIN_X, MAX_VELOCITY_MM_PER_MIN_Y,
    MAX_VELOCITY_MM_PER_MIN_Z, MAX_VELOCITY_MM_PER_MIN_E,
    MAX_VELOCITY_MM_PER_MIN_Q, MAX_VELOCITY_MM_PER_MIN_N,
    MAX_VELOCITY_MM_PER_MIN_A, MAX_VELOCITY_MM_PER_MIN_B,
    MIN_VELOCITY_MM_PER_MIN, STEPPER_PULSES_PER_MM_X, STEPPER_PULSES_PER_MM_Y,
    STEPPER_PULSES_PER_MM_Z, STEPPER_PULSES_PER_MM_E, STEPPER_PULSES_PER_MM_Q,
    STEPPER_PULSES_PER_MM_N, STEPPER_PULSES_PER_MM_A, STEPPER_PULSES_PER_MM_B]

/-- C6 (witness): the no-op theorem instantiated at the concrete line
`G1 X0.001 F3000` from the initial state with the permissive oracle. -/
theorem C6_witness :
    GMachine.do_command GMachine.hal_ok GMachine.initial_state
        (some { GMachine.gline_empty with
          x := some (1/1000), f := some 3000, cmd := some .G1 })
      = ⟨{ GMachine.initial_state with
            velocity := GMachine.command_velocity GMachine.initial_state
              { GMachine.gline_empty with
                x := some (1/1000), f := some 3000, cmd := some .G1 } },
         none, []⟩ :=
  C6_rounded_zero_noop GMachine.hal_ok GMachine.initial_state
    { GMachine.gline_empty with x := some (1/1000), f := some 3000, cmd := some .G1 }
    (Or.inr rfl)
    (by norm_num [GMachine.command_velocity, GMachine.gline_empty,
      MIN_VELOCITY_MM_PER_MIN])
    (by norm_num [GMachine.command_delta, GMachine.gline_coordinates,
      GMachine.gline_get, GMachine.gline_empty, GMachine.gline_has_coordinates,
      GMachine.initial_state, Coordinates.init, Coordinates.add, Coordinates.sub,
      Coordinates.round, Coordinates.is_zero, round10, roundHalfEven,
      STEPPER_PULSES_PER_MM_X, STEPPER_PULSES_PER_MM_Y, STEPPER_PULSES_PER_MM_Z,
      STEPPER_PULSES_PER_MM_E, STEPPER_PULSES_PER_MM_Q, STEPPER_PULSES_PER_MM_N,
      STEPPER_PULSES_PER_MM_A, STEPPER_PULSES_PER_MM_B])

theorem move_linear_error_state (hal : GMachine.Hal) (s : GMachine.MachineState)
    (d : Coordinates) (v : ℚ)
    (h : (GMachine.move_linear hal s d v).error.isSome = true) :
    (GMachine.move_linear hal s d v).state = s := by
  simp only [GMachine.move_linear] at h ⊢
  split_ifs at h ⊢ <;> simp_all

theorem heat_handler_inert (hal : GMachine.Hal) (s : GMachine.MachineState)
    (g : GMachine.GLine) (ht : GMachine.Heater) :
    (GMachine.heat_handler hal s g ht).state = s
      ∧ (GMachine.heat_handler hal s g ht).moves = [] := by
  unfold GMachine.heat_handler
  cases hgs : g.s <;> cases ht <;> simp only [hgs] <;> (try split_ifs) <;> simp

theorem dispatch_error_state (hal : GMachine.Hal) (s : GMachine.MachineState)
    (g : GMachine.GLine) (c : Option GMachine.Cmd) (delta : Coordinates)
    (velocity : ℚ)
    (h28 : c ≠ some .G28) (h93 : c ≠ some .G93)
    (herr : (GMachine.dispatch hal s g c delta velocity).error.isSome = true) :
    (GMachine.dispatch hal s g c delta velocity).state = s := by
  cases c with
  | none => simp [GMachine.dispatch] at herr
  | some cmd =>
    cases cmd
    case G28 => exact absurd rfl h28
    case G93 => exact absurd rfl h93
    case G0 => exact move_linear_error_state _ _ _ _ herr
    case G1 => exact move_linear_error_state _ _ _ _ herr
    case M104 => exact (heat_handler_inert _ _ _ _).1
    case M109 => exact (heat_handler_inert _ _ _ _).1
    case M140 => exact (heat_handler_inert _ _ _ _).1
    case M190 => exact (heat_handler_inert _ _ _ _).1
    case M2 => simp [GMachine.dispatch, GMachine.reset_state] at herr
    case M30 => simp [GMachine.dispatch, GMachine.reset_state] at herr
    all_goals simp only [GMachine.dispatch] at herr ⊢
    all_goals try rfl
    case G4 =>
      cases hgp : g.p with
      | none => simp only [hgp] at herr ⊢
      | some w =>
        simp only [hgp] at herr ⊢
        split_ifs at herr ⊢ <;> first | rfl | simp at herr
    case G92 => split at herr <;> simp_all
    case M82 => split_ifs at herr ⊢ <;> first | rfl | simp at herr
    case M83 => split_ifs at herr ⊢ <;> first | rfl | simp at herr
    case M105 => split_ifs at herr ⊢ <;> first | rfl | simp at herr
    all_goals simp at herr

theorem effective_command_ne (gc : GMachine.GLine) (cc : GMachine.Cmd)
    (hne : cc ≠ .G1) (h : gc.cmd ≠ some cc) :
    GMachine.effective_command gc ≠ some cc := by
  unfold GMachine.effective_command
  cases hgc : gc.cmd with
  | none =>
    split_ifs with hco
    · intro hx
      simp only [Option.some.injEq] at hx
      exact hne hx.symm
    · intro hx
      exact Option.noConfusion hx
  | some c =>
    rw [hgc] at h
    exact h

/-- C2 (amended): for every gcode line whose command token is not one of
the homing commands `G28`/`G93`, a command error raised by `do_command`
leaves the machine state — position, frame offset, absolute/relative
mode, unit scale, plane, and persisted feed rate — exactly as it was
before the call (the feed rate is persisted only on success); moreover in
`_move_linear` the position is committed only when the pulse generator
was handed to `hal.move` and the hand-off succeeded.  On the excluded
homing paths the sub-moves completed before a later failure (e.g. a
failed calibration) remain committed. -/
theorem C2_no_partial_state_on_error (hal : GMachine.Hal)
    (s : GMachine.MachineState) (gc : GMachine.GLine)
    (h28 : gc.cmd ≠ some .G28) (h93 : gc.cmd ≠ some .G93) :
    ((GMachine.do_command hal s (some gc)).error.isSome = true →
        (GMachine.do_command hal s (some gc)).state = s)
      ∧ ∀ (d : Coordinates) (v : ℚ),
          (GMachine.move_linear hal s d v).state ≠ s →
            (GMachine.move_linear hal s d v).error = none
              ∧ (GMachine.move_linear hal s d v).moves ≠ [] := by
  constructor
  · intro herr
    simp only [GMachine.do_command] at herr ⊢
    by_cases hv : GMachine.command_velocity s gc < MIN_VELOCITY_MM_PER_MIN
    · rw [if_pos hv]
    · rw [if_neg hv] at herr ⊢
      cases hde : (GMachine.dispatch hal s gc (GMachine.effective_command gc)
          (GMachine.command_delta s gc) (GMachine.command_velocity s gc)).error with
      | none => simp [hde] at herr
      | some e =>
        simp only [hde] at herr ⊢
        exact dispatch_error_state hal s gc _ _ _
          (effective_command_ne gc .G28 (by simp) h28)
          (effective_command_ne gc .G93 (by simp) h93)
          (by rw [hde]; rfl)
  · intro d v hne
    simp only [GMachine.move_linear] at hne ⊢
    split_ifs at hne ⊢ <;> simp_all

/-- C2 (counterexample): the line `G28` from the initial state, with the
hardware oracle reporting a failed calibration, raises a command error
("failed to calibrate") after `safe_zero` has already moved and committed
the position to (0, 0, 455, 0, 455, 0, 0, 0): machine state does mutate
on a failed command. -/
theorem C2_counterexample_g28_calibrate_fail :
    (GMachine.do_command GMachine.hal_calibrate_fail GMachine.initial_state
        (some { GMachine.gline_empty with cmd := some .G28 })).error
        = some .calibrateFailed
      ∧ (GMachine.do_command GMachine.hal_calibrate_fail GMachine.initial_state
          (some { GMachine.gline_empty with cmd := some .G28 })).state.position
        = Coordinates.init 0 0 455 0 455 0 0 0
      ∧ (GMachine.do_command GMachine.hal_calibrate_fail GMachine.initial_state
          (some { GMachine.gline_empty with cmd := some .G28 })).state.position
        ≠ GMachine.initial_state.position := by
  norm_num [GMachine.do_command, GMachine.effective_command, GMachine.command_delta,
    GMachine.command_velocity, GMachine.dispatch, GMachine.move_linear,
    GMachine.check_delta_ok, GMachine.check_velocity_errors, GMachine.bind_move,
    GMachine.safe_zero, GMachine.gline_get, GMachine.gline_coordinates,
    GMachine.gline_has_coordinates, GMachine.gline_empty, GMachine.hal_ok,
    GMachine.hal_calibrate_fail, GMachine.initial_state, GMachine.reset_velocity,
    Coordinates.init, Coordinates.add, Coordinates.sub, Coordinates.round,
    Coordinates.is_zero, Coordinates.is_in_aabb, round10, roundHalfEven,
    copysign, distance_pivot_tool_mm, distance_pivot_FFF_nozzle,
    TABLE_SIZE_Z_MM, TABLE_SIZE_RADIUS_MM, MAX_ROTATION_N_MM, MAX_TILT_ANGLE,
    MAX_VELOCITY_MM_PER_MIN_X, MAX_VELOCITY_MM_PER_MIN_Y,
    MAX_VELOCITY_MM_PER_MIN_Z, MAX_VELOCITY_MM_PER_MIN_E,
    MAX_VELOCITY_MM_PER_MIN_Q, MAX_VELOCITY_MM_PER_MIN_N,
    MAX_VELOCITY_MM_PER_MIN_A, MAX_VELOCITY_MM_PER_MIN_B,
    MIN_VELOCITY_MM_PER_MIN, STEPPER_PULSES_PER_MM_X, STEPPER_PULSES_PER_MM_Y,
    STEPPER_PULSES_PER_MM_Z, STEPPER_PULSES_PER_MM_E, STEPPER_PULSES_PER_MM_Q,
    STEPPER_PULSES_PER_MM_N, STEPPER_PULSES_PER_MM_A, STEPPER_PULSES_PER_MM_B]

/-- C2 (witness): the amended theorem instantiated at the erroring line
`M3` (spindle-on, "not implemented") from the initial state. -/
theorem C2_witness :
    ((GMachine.do_command GMachine.hal_ok GMachine.initial_state
        (some { GMachine.gline_empty with cmd := some .M3 })).error.isSome = true →
        (GMachine.do_command GMachine.hal_ok GMachine.initial_state
          (some { GMachine.gline_empty with cmd := some .M3 })).state
          = GMachine.initial_state)
      ∧ ∀ (d : Coordinates) (v : ℚ),
          (GMachine.move_linear GMachine.hal_ok GMachine.initial_state d v).state
              ≠ GMachine.initial_state →
            (GMachine.move_linear GMachine.hal_ok GMachine.initial_state d v).error = none
              ∧ (GMachine.move_linear GMachine.hal_ok GMachine.initial_state d v).moves
                ≠ [] :=
  C2_no_partial_state_on_error GMachine.hal_ok GMachine.initial_state
    { GMachine.gline_empty with cmd := some .M3 } (by simp) (by simp)

end PyCNC
